import Mathlib

/-!
Shallow embedding of `scripts/ruuvi.py`: a linear script that parses a
comma-separated `--macs` argument, fetches sensor data with a fixed 90 s
timeout via `RuuviTagSensor.get_data_for_sensors`, POSTs the result as JSON
to a fixed URL with a 4 s timeout, checks the response status, catches
`requests` exceptions and generic exceptions separately, and ends in
`exit(0)`.

The script is modeled as a pure function from a `World` (the observable wall
clock, the outcome of the external retrieval call, and the outcome of the
HTTP POST) and the optional `--macs` string to the list of observable events
(console prints, the retrieval call, the POST call) together with the process
exit status. The sensor reading set is an arbitrary type parameter `Data`:
the script passes it through untouched, so every theorem below is
parametric in the payload.
-/

set_option autoImplicit false

namespace Ruuvi

/-- Python truthiness of the optional `--macs` argument, as tested by
`if args.macs:` on line 25: `None` (flag absent) and the empty string are
both falsy. -/
def pyTruthy : Option String → Bool
  | none => false
  | some s => s != ""

/-- Splitting a character list at every occurrence of a separator
character, accumulating the current piece in reverse; this is the semantics
of Python `str.split(sep)` for a one-character separator: every occurrence
of the separator ends a piece, the empty input gives `[[]]`, and adjacent
separators give empty pieces. -/
def splitCharsAux (sep : Char) : List Char → List Char → List (List Char)
  | [], acc => [acc.reverse]
  | c :: cs, acc =>
    if c = sep then acc.reverse :: splitCharsAux sep cs []
    else splitCharsAux sep cs (c :: acc)

/-- Python `s.split(sep)` for a one-character separator, on strings. -/
def pySplit (s : String) (sep : Char) : List String :=
  (splitCharsAux sep s.data []).map String.mk

/-- The `macs` variable of the script: bound to `args.macs.split(",")`
(line 27) only when `args.macs` is truthy; otherwise the name is never
assigned, modeled as `none`. -/
def parsedMacs (argsMacs : Option String) : Option (List String) :=
  if pyTruthy argsMacs then some (pySplit (argsMacs.getD "") ',') else none

/-- Python exceptions, split exactly as the two `except` clauses of the
script do: `requests.exceptions.RequestException` and every other
`Exception`. -/
inductive PyExc where
  | requestException (msg : String)
  | otherError (msg : String)
deriving DecidableEq

/-- Structured console messages; `render` below gives the exact text the
corresponding `print` emits. -/
inductive LogMsg where
  | macAddresses (macs : List String)
  | noMacs
  | fetched
  | posted
  | postRequestError (msg : String)
  | scriptError (msg : String)
deriving DecidableEq

/-- Observable events of one run: a console line (with the timestamp string
interpolated into it), the blocking retrieval call (with its argument list
and timeout), and the HTTP POST (with url, body and timeout). -/
inductive Event (Data : Type) where
  | printLine (time : String) (msg : LogMsg)
  | fetchCall (macs : List String) (timeoutSec : Nat)
  | postCall (u : String) (body : Data) (timeoutSec : Nat)
deriving DecidableEq

/-- The environment of one run: `timeAt n` is what `datetime.now()`
(formatted) reads at the n-th wall-clock sample the script could take
(the script takes exactly one, at index 0, on line 22); `fetchResult` is the
behavior of the external `RuuviTagSensor.get_data_for_sensors` call
(a reading set, or a raised exception); `postResult` is the behavior of
`requests.post` (an HTTP status code, or a raised connection-level
`RequestException`). -/
structure World (Data : Type) where
  timeAt : Nat → String
  fetchResult : Except PyExc Data
  postResult : Except String Nat

/-- `timeout_in_sec = 90` (line 33), passed to the retrieval call. -/
def timeout_in_sec : Nat := 90

/-- The fixed literal `timeout=4` of the `requests.post` call (line 41). -/
def postTimeout : Nat := 4

/-- `url` (line 35), the fixed POST target. -/
def url : String := "http://localhost:3001/api/ruuvi"

/-- The message of the `NameError` raised on line 38 when the name `macs`
was never bound. -/
def nameErrorMsg : String := "name \x27macs\x27 is not defined"

/-- The message of the `requests.exceptions.HTTPError` raised by
`raise_for_status` (reason phrase abbreviated; no theorem depends on the
exact text). -/
def httpErrorMsg (status : Nat) : String :=
  if status < 500 then toString status ++ " Client Error for url: " ++ url
  else toString status ++ " Server Error for url: " ++ url

/-- `response.raise_for_status()` (line 42): raises `HTTPError` (a
`RequestException`) exactly when the status code is 4xx or 5xx. -/
def raiseForStatus (status : Nat) : Option PyExc :=
  if 400 ≤ status ∧ status < 600 then
    some (PyExc.requestException (httpErrorMsg status))
  else none

/-- Python `repr` of a string (single-quoted, as `print` shows list
elements). -/
def pyStrRepr (s : String) : String := "\x27" ++ s ++ "\x27"

/-- Python `repr` of a list of strings, as printed on line 28. -/
def pyListRepr (l : List String) : String :=
  "[" ++ String.intercalate ", " (l.map pyStrRepr) ++ "]"

/-- The exact console text of each message, timestamp prefix included,
matching the `print(f...)` calls of the script. -/
def render (t : String) : LogMsg → String
  | LogMsg.macAddresses ms => t ++ " - MAC addresses: " ++ pyListRepr ms
  | LogMsg.noMacs => t ++ " - No MAC addresses provided."
  | LogMsg.fetched => t ++ " - Ruuvi sensor data has been fetched"
  | LogMsg.posted => t ++ " - Ruuvi sensor data has been POST to API"
  | LogMsg.postRequestError m => t ++ " - Error making POST request: " ++ m
  | LogMsg.scriptError m => t ++ " - Error in script: " ++ m

/-- Which `except` clause catches which exception, i.e. which error line is
printed (lines 45-48). -/
def excLog : PyExc → LogMsg
  | PyExc.requestException m => LogMsg.postRequestError m
  | PyExc.otherError m => LogMsg.scriptError m

/-- The `try` block (lines 37-43): evaluate `macs` (raising `NameError`
when unbound, before the retrieval function is ever entered), call the
retrieval capability with the fixed 90 s timeout, print the fetched line,
POST with the fixed 4 s timeout, check the status, print the success line.
Returns the events of the block and the exception escaping it, if any. -/
def tryBody {Data : Type} (w : World Data) (macs : Option (List String))
    (now : String) : List (Event Data) × Option PyExc :=
  match macs with
  | none => ([], some (PyExc.otherError nameErrorMsg))
  | some ms =>
    match w.fetchResult with
    | Except.error e => ([Event.fetchCall ms timeout_in_sec], some e)
    | Except.ok d =>
      let afterFetch : List (Event Data) :=
        [Event.fetchCall ms timeout_in_sec, Event.printLine now LogMsg.fetched]
      match w.postResult with
      | Except.error msg =>
          (afterFetch ++ [Event.postCall url d postTimeout],
           some (PyExc.requestException msg))
      | Except.ok status =>
        match raiseForStatus status with
        | some e => (afterFetch ++ [Event.postCall url d postTimeout], some e)
        | none =>
            (afterFetch ++
              [Event.postCall url d postTimeout, Event.printLine now LogMsg.posted],
             none)

/-- One run of the script: sample the clock once (line 22), print the
argument line, run the `try` block, print the line of whichever `except`
clause fires, and `exit(0)` (line 50). Returns the event trace and the
process exit status. -/
def runScript {Data : Type} (w : World Data) (argsMacs : Option String) :
    List (Event Data) × Nat :=
  let current_datetime := w.timeAt 0
  let macs : Option (List String) := parsedMacs argsMacs
  let pre : List (Event Data) :=
    match macs with
    | some ms => [Event.printLine current_datetime (LogMsg.macAddresses ms)]
    | none => [Event.printLine current_datetime LogMsg.noMacs]
  let body := tryBody w macs current_datetime
  let post : List (Event Data) :=
    match body.2 with
    | none => []
    | some e => [Event.printLine current_datetime (excLog e)]
  (pre ++ body.1 ++ post, 0)

/-- Recognizer for POST events. -/
def isPost {Data : Type} : Event Data → Bool
  | Event.postCall _ _ _ => true
  | _ => false

/-- Recognizer for retrieval-call events. -/
def isFetch {Data : Type} : Event Data → Bool
  | Event.fetchCall _ _ => true
  | _ => false

/-- Trace equation for a run with a falsy `--macs` argument. -/
theorem runScript_eq_noMacs {Data : Type} (w : World Data) (m : Option String)
    (hm : parsedMacs m = none) :
    runScript w m =
      ([Event.printLine (w.timeAt 0) LogMsg.noMacs,
        Event.printLine (w.timeAt 0) (LogMsg.scriptError nameErrorMsg)], 0) := by
  simp only [runScript, tryBody, hm]
  rfl

/-- Trace equation for a run whose retrieval call raises. -/
theorem runScript_eq_fetchErr {Data : Type} (w : World Data)
    (m : Option String) (ms : List String) (e : PyExc)
    (hm : parsedMacs m = some ms) (hf : w.fetchResult = Except.error e) :
    runScript w m =
      ([Event.printLine (w.timeAt 0) (LogMsg.macAddresses ms),
        Event.fetchCall ms timeout_in_sec,
        Event.printLine (w.timeAt 0) (excLog e)], 0) := by
  simp only [runScript, tryBody, hm, hf]
  rfl

/-- Trace equation for a run whose POST raises a connection-level
`RequestException`. -/
theorem runScript_eq_postErr {Data : Type} (w : World Data)
    (m : Option String) (ms : List String) (d : Data) (msg : String)
    (hm : parsedMacs m = some ms) (hf : w.fetchResult = Except.ok d)
    (hp : w.postResult = Except.error msg) :
    runScript w m =
      ([Event.printLine (w.timeAt 0) (LogMsg.macAddresses ms),
        Event.fetchCall ms timeout_in_sec,
        Event.printLine (w.timeAt 0) LogMsg.fetched,
        Event.postCall url d postTimeout,
        Event.printLine (w.timeAt 0) (LogMsg.postRequestError msg)], 0) := by
  simp only [runScript, tryBody, hm, hf, hp]
  rfl

/-- Trace equation for a run whose POST response fails the status check. -/
theorem runScript_eq_httpErr {Data : Type} (w : World Data)
    (m : Option String) (ms : List String) (d : Data) (status : Nat)
    (e : PyExc) (hm : parsedMacs m = some ms)
    (hf : w.fetchResult = Except.ok d) (hp : w.postResult = Except.ok status)
    (hr : raiseForStatus status = some e) :
    runScript w m =
      ([Event.printLine (w.timeAt 0) (LogMsg.macAddresses ms),
        Event.fetchCall ms timeout_in_sec,
        Event.printLine (w.timeAt 0) LogMsg.fetched,
        Event.postCall url d postTimeout,
        Event.printLine (w.timeAt 0) (excLog e)], 0) := by
  simp only [runScript, tryBody, hm, hf, hp, hr]
  rfl

/-- Trace equation for a fully successful run. -/
theorem runScript_eq_success {Data : Type} (w : World Data)
    (m : Option String) (ms : List String) (d : Data) (status : Nat)
    (hm : parsedMacs m = some ms) (hf : w.fetchResult = Except.ok d)
    (hp : w.postResult = Except.ok status)
    (hr : raiseForStatus status = none) :
    runScript w m =
      ([Event.printLine (w.timeAt 0) (LogMsg.macAddresses ms),
        Event.fetchCall ms timeout_in_sec,
        Event.printLine (w.timeAt 0) LogMsg.fetched,
        Event.postCall url d postTimeout,
        Event.printLine (w.timeAt 0) LogMsg.posted], 0) := by
  simp only [runScript, tryBody, hm, hf, hp, hr]
  rfl

/-- C2: For every execution, whatever the outcome (successful POST,
retrieval error, HTTP error, or any other caught exception), the process
exits with status 0 and never terminates via an uncaught exception: every
run of the script, over every environment behavior and every argument,
returns exit status 0 (the script is total, so every exception modeled is
caught and control always reaches `exit(0)`). -/
theorem exitsZeroAlways {Data : Type} (w : World Data) (m : Option String) :
    (runScript w m).2 = 0 := rfl

/-- C3: With the `--macs` flag absent, the run prints the
"No MAC addresses provided." line, does not crash before the retrieval
statement, reaches that statement — which fails with a `NameError` on the
unbound name `macs` (so the retrieval capability itself is never entered
and no retrieval-call event occurs) — and that failure is caught by the
generic handler and logged, the process exiting 0. The trace is exactly
those two console lines. -/
theorem noMacsFlagRun {Data : Type} (w : World Data) :
    runScript w none =
      ([Event.printLine (w.timeAt 0) LogMsg.noMacs,
        Event.printLine (w.timeAt 0) (LogMsg.scriptError nameErrorMsg)], 0) ∧
    render (w.timeAt 0) LogMsg.noMacs =
      w.timeAt 0 ++ " - No MAC addresses provided." := ⟨rfl, rfl⟩

/-- C10: Supplying `--macs ""` behaves exactly like omitting the flag:
the truthiness test fails, so the run is identical to the flag-absent run —
the "No MAC addresses provided." message is printed, no identifier list is
ever constructed (`parsedMacs` is `none`, the empty string is never split),
the retrieval statement fails with the caught `NameError`, and the process
exits 0. -/
theorem emptyMacsLikeAbsent {Data : Type} (w : World Data) :
    runScript w (some "") = runScript w none ∧
    parsedMacs (some "") = none ∧
    runScript w (some "") =
      ([Event.printLine (w.timeAt 0) LogMsg.noMacs,
        Event.printLine (w.timeAt 0) (LogMsg.scriptError nameErrorMsg)], 0) :=
  ⟨rfl, rfl, rfl⟩

/-- C4, counterexample: the claim quantifies over every string supplied to
`--macs`, but for the empty string the script never builds an identifier
list at all (the truthiness test fails first), so the parsed result is not
the comma-split of the supplied string (Python would give `[""]`). -/
theorem macsSplitCounterexample :
    ¬ parsedMacs (some "") = some (pySplit "" ',') := by decide

/-- C4, amended: for every nonempty string supplied to `--macs`, the parsed
identifier list is exactly the result of splitting that string on commas;
in particular "AA:BB:CC,DD:EE:FF" yields ["AA:BB:CC", "DD:EE:FF"]. -/
theorem macsSplitNonempty (s : String) (h : s ≠ "") :
    parsedMacs (some s) = some (pySplit s ',') := by
  simp [parsedMacs, pyTruthy, h]

/-- Witness for `macsSplitNonempty` at the spec's example input. -/
theorem macsSplitNonemptyWitness :
    "AA:BB:CC,DD:EE:FF" ≠ "" ∧
    parsedMacs (some "AA:BB:CC,DD:EE:FF") =
      some (pySplit "AA:BB:CC,DD:EE:FF" ',') ∧
    pySplit "AA:BB:CC,DD:EE:FF" ',' = ["AA:BB:CC", "DD:EE:FF"] :=
  ⟨by decide, macsSplitNonempty "AA:BB:CC,DD:EE:FF" (by decide), by decide⟩

/-- A concrete environment with a successful fetch and a 200 response,
used by witness theorems. -/
def wOk : World String :=
  { timeAt := fun _ => "T", fetchResult := Except.ok "readings",
    postResult := Except.ok 200 }

/-- A concrete environment whose retrieval call raises, used by witness
theorems. -/
def wFetchFail : World String :=
  { timeAt := fun _ => "T",
    fetchResult := Except.error (PyExc.otherError "boom"),
    postResult := Except.ok 200 }

/-- A concrete environment whose POST gets a 500 response, used by witness
theorems. -/
def w500 : World String :=
  { timeAt := fun _ => "T", fetchResult := Except.ok "readings",
    postResult := Except.ok 500 }

/-- A concrete environment whose clock changes after startup, used by
witness theorems. -/
def wClockA : World String :=
  { timeAt := fun n => if n = 0 then "T0" else "T1",
    fetchResult := Except.ok "readings", postResult := Except.ok 200 }

/-- A concrete environment frozen at the startup instant of `wClockA`,
used by witness theorems. -/
def wClockB : World String :=
  { timeAt := fun _ => "T0",
    fetchResult := Except.ok "readings", postResult := Except.ok 200 }

/-- C1: For every reading set returned by the retrieval call, the script
issues exactly one HTTP POST, to the fixed URL
`http://localhost:3001/api/ruuvi`, whose body is exactly that reading set:
the filtered POST events of the run are precisely one `postCall` carrying
the returned data `d` untouched. `Data` is an arbitrary type, so the script
cannot inspect, add, remove or transform any field of the payload. -/
theorem postBodyExact {Data : Type} (w : World Data) (m : Option String)
    (ms : List String) (d : Data)
    (hm : parsedMacs m = some ms) (hf : w.fetchResult = Except.ok d) :
    (runScript w m).1.filter isPost = [Event.postCall url d postTimeout] ∧
    url = "http://localhost:3001/api/ruuvi" := by
  refine ⟨?_, rfl⟩
  rcases hp : w.postResult with msg | status
  · rw [runScript_eq_postErr w m ms d msg hm hf hp]
    simp [isPost]
  · rcases hr : raiseForStatus status with _ | e
    · rw [runScript_eq_success w m ms d status hm hf hp hr]
      simp [isPost]
    · rw [runScript_eq_httpErr w m ms d status e hm hf hp hr]
      simp [isPost]

/-- Witness for `postBodyExact` on a concrete run. -/
theorem postBodyExactWitness :
    parsedMacs (some "AA:BB:CC") = some ["AA:BB:CC"] ∧
    wOk.fetchResult = Except.ok "readings" ∧
    ((runScript wOk (some "AA:BB:CC")).1.filter isPost =
       [Event.postCall url "readings" postTimeout] ∧
     url = "http://localhost:3001/api/ruuvi") :=
  ⟨by decide, rfl,
   postBodyExact wOk (some "AA:BB:CC") ["AA:BB:CC"] "readings" (by decide) rfl⟩

/-- C5: If the retrieval call raises, the exception is caught and logged
(via the `except` clause matching its class), the run exits 0, and no POST
event occurs in the trace at all. -/
theorem fetchErrorCaught {Data : Type} (w : World Data) (m : Option String)
    (ms : List String) (e : PyExc)
    (hm : parsedMacs m = some ms) (hf : w.fetchResult = Except.error e) :
    (runScript w m).1.filter isPost = [] ∧
    (runScript w m).2 = 0 ∧
    Event.printLine (w.timeAt 0) (excLog e) ∈ (runScript w m).1 := by
  simp only [runScript, tryBody, hm, hf]
  simp [isPost]

/-- Witness for `fetchErrorCaught` on a concrete run. -/
theorem fetchErrorCaughtWitness :
    parsedMacs (some "AA") = some ["AA"] ∧
    wFetchFail.fetchResult = Except.error (PyExc.otherError "boom") ∧
    ((runScript wFetchFail (some "AA")).1.filter isPost = [] ∧
     (runScript wFetchFail (some "AA")).2 = 0 ∧
     Event.printLine (wFetchFail.timeAt 0) (excLog (PyExc.otherError "boom")) ∈
       (runScript wFetchFail (some "AA")).1) :=
  ⟨by decide, rfl,
   fetchErrorCaught wFetchFail (some "AA") ["AA"] (PyExc.otherError "boom")
     (by decide) rfl⟩

/-- C6: After the POST, `raise_for_status` checks the response; for every
error status (4xx/5xx, e.g. 500) the failure is detected and logged via the
`RequestException` handler, and the success line for the POST is never
printed (the POST event itself does occur). -/
theorem httpErrorDetected {Data : Type} (w : World Data) (m : Option String)
    (ms : List String) (d : Data) (status : Nat)
    (hm : parsedMacs m = some ms) (hf : w.fetchResult = Except.ok d)
    (hp : w.postResult = Except.ok status)
    (h4 : 400 ≤ status) (h6 : status < 600) :
    Event.postCall url d postTimeout ∈ (runScript w m).1 ∧
    Event.printLine (w.timeAt 0)
        (LogMsg.postRequestError (httpErrorMsg status)) ∈ (runScript w m).1 ∧
    ∀ t, Event.printLine t LogMsg.posted ∉ (runScript w m).1 := by
  simp only [runScript, tryBody, hm, hf, hp]
  simp [raiseForStatus, h4, h6, excLog]

/-- Witness for `httpErrorDetected` at status 500. -/
theorem httpErrorDetectedWitness :
    parsedMacs (some "AA") = some ["AA"] ∧
    (400 : Nat) ≤ 500 ∧ (500 : Nat) < 600 ∧
    (Event.postCall url "readings" postTimeout ∈
       (runScript w500 (some "AA")).1 ∧
     Event.printLine (w500.timeAt 0)
         (LogMsg.postRequestError (httpErrorMsg 500)) ∈
       (runScript w500 (some "AA")).1 ∧
     ∀ t, Event.printLine t LogMsg.posted ∉ (runScript w500 (some "AA")).1) :=
  ⟨by decide, by decide, by decide,
   httpErrorDetected w500 (some "AA") ["AA"] "readings" 500 (by decide) rfl
     rfl (by decide) (by decide)⟩

/-- C7: The retrieval call is always issued with the fixed 90 s timeout
and the POST always with the fixed 4 s timeout, in every run over every
environment and argument: any retrieval event in any trace carries timeout
`timeout_in_sec = 90` and any POST event carries `postTimeout = 4`. -/
theorem timeoutsFixed {Data : Type} (w : World Data) (m : Option String) :
    (∀ ms t, Event.fetchCall ms t ∈ (runScript w m).1 → t = timeout_in_sec) ∧
    (∀ u d t, Event.postCall u d t ∈ (runScript w m).1 → t = postTimeout) ∧
    timeout_in_sec = 90 ∧ postTimeout = 4 := by
  refine ⟨?_, ?_, rfl, rfl⟩
  all_goals
    rcases hm : parsedMacs m with _ | ms
    · rw [runScript_eq_noMacs w m hm]
      simp
    · rcases hf : w.fetchResult with e | d
      · rw [runScript_eq_fetchErr w m ms e hm hf]
        simp
      · rcases hp : w.postResult with s | st
        · rw [runScript_eq_postErr w m ms d s hm hf hp]
          simp
        · rcases hr : raiseForStatus st with _ | e2
          · rw [runScript_eq_success w m ms d st hm hf hp hr]
            simp
          · rw [runScript_eq_httpErr w m ms d st e2 hm hf hp hr]
            simp

/-- Witness for `timeoutsFixed` on a concrete run containing both calls. -/
theorem timeoutsFixedWitness :
    (Event.fetchCall ["AA"] 90 ∈ (runScript wOk (some "AA")).1 ∧
     (90 : Nat) = timeout_in_sec) ∧
    (Event.postCall url "readings" 4 ∈ (runScript wOk (some "AA")).1 ∧
     (4 : Nat) = postTimeout) :=
  ⟨⟨by decide, (timeoutsFixed wOk (some "AA")).1 ["AA"] 90 (by decide)⟩,
   ⟨by decide,
    (timeoutsFixed wOk (some "AA")).2.1 url "readings" 4 (by decide)⟩⟩

/-- C8: In every run the script issues at most one POST and calls the
retrieval capability at most once — no retry of either step — so the
network side effects of a run are either empty or a single POST. -/
theorem atMostOneRequest {Data : Type} (w : World Data) (m : Option String) :
    ((runScript w m).1.filter isPost).length ≤ 1 ∧
    ((runScript w m).1.filter isFetch).length ≤ 1 := by
  rcases hm : parsedMacs m with _ | ms
  · rw [runScript_eq_noMacs w m hm]
    simp [isPost, isFetch]
  · rcases hf : w.fetchResult with e | d
    · rw [runScript_eq_fetchErr w m ms e hm hf]
      simp [isPost, isFetch]
    · rcases hp : w.postResult with s | st
      · rw [runScript_eq_postErr w m ms d s hm hf hp]
        simp [isPost, isFetch]
      · rcases hr : raiseForStatus st with _ | e2
        · rw [runScript_eq_success w m ms d st hm hf hp hr]
          simp [isPost, isFetch]
        · rw [runScript_eq_httpErr w m ms d st e2 hm hf hp hr]
          simp [isPost, isFetch]

/-- C9: The timestamp is read from the clock exactly once, at startup
(index 0), before the blocking retrieval call: a run's entire behavior is
unchanged if the clock readings after startup change, and every console
line of the run carries the startup reading as its timestamp — so all log
lines of one run, error lines after the long fetch included, show startup
time rather than the time of the logged event. -/
theorem timestampSampledOnce {Data : Type} (w w2 : World Data)
    (m : Option String) (ht : w.timeAt 0 = w2.timeAt 0)
    (hf : w.fetchResult = w2.fetchResult)
    (hp : w.postResult = w2.postResult) :
    runScript w m = runScript w2 m ∧
    ∀ t msg, Event.printLine t msg ∈ (runScript w m).1 → t = w.timeAt 0 := by
  constructor
  · unfold runScript tryBody
    rw [ht, hf, hp]
  · rcases hm : parsedMacs m with _ | ms
    · rw [runScript_eq_noMacs w m hm]
      intro t msg hmem
      simp at hmem
      tauto
    · rcases hfr : w.fetchResult with e | d
      · rw [runScript_eq_fetchErr w m ms e hm hfr]
        intro t msg hmem
        simp at hmem
        tauto
      · rcases hpr : w.postResult with s | st
        · rw [runScript_eq_postErr w m ms d s hm hfr hpr]
          intro t msg hmem
          simp at hmem
          tauto
        · rcases hr : raiseForStatus st with _ | e2
          · rw [runScript_eq_success w m ms d st hm hfr hpr hr]
            intro t msg hmem
            simp at hmem
            tauto
          · rw [runScript_eq_httpErr w m ms d st e2 hm hfr hpr hr]
            intro t msg hmem
            simp at hmem
            tauto

/-- Witness for `timestampSampledOnce`: a clock that moves after startup
gives the same run as one frozen at the startup instant, and the fetched
line carries the startup timestamp. -/
theorem timestampSampledOnceWitness :
    wClockA.timeAt 0 = wClockB.timeAt 0 ∧
    wClockA.fetchResult = wClockB.fetchResult ∧
    wClockA.postResult = wClockB.postResult ∧
    runScript wClockA (some "AA") = runScript wClockB (some "AA") ∧
    Event.printLine "T0" LogMsg.fetched ∈ (runScript wClockA (some "AA")).1 ∧
    ("T0" : String) = wClockA.timeAt 0 :=
  ⟨by decide, rfl, rfl,
   (timestampSampledOnce wClockA wClockB (some "AA") (by decide) rfl rfl).1,
   by decide,
   (timestampSampledOnce wClockA wClockB (some "AA") (by decide) rfl rfl).2
     "T0" LogMsg.fetched (by decide)⟩

end Ruuvi
